import Mathlib

/-!
Verification of the WebBluetooth hardware layer
(src/wasm/rust/src/webbluetooth/webbluetooth_hardware.rs and
src/wasm/rust/src/webbluetooth/webbluetooth_manager.rs).

Conventions of the shallow embedding:
* Rust strings used only as opaque identifiers (UUIDs, device names,
  addresses, error text) are Lean String; the one string whose characters
  the code inspects (the scan-filter name pattern, which is tested with
  contains("*") and shortened with pop()) is modelled as List Char so the
  character-level operations are explicit.
* std HashMap is modelled as an association list whose lookup takes the
  most recently inserted binding, matching HashMap insert/get observables.
* A computation that can panic (an unwrap on None or on Err) is modelled
  in the Outcome monad-like type: ok a for normal return, panicked msg for
  a Rust panic.
* The browser GATT layer (web_sys) is an external collaborator; it is
  modelled as a record of fallible functions (BrowserGatt) and as explicit
  inputs describing what the live device exposes (LiveDevice, ChooserResult).
-/

/-- Result of a Rust computation that can panic: ok for normal return,
panicked carrying the panic message. -/
inductive Outcome (α : Type)
  | ok (a : α)
  | panicked (msg : String)
deriving DecidableEq

/-- Panic message of Option::unwrap on None. -/
def unwrapNoneMsg : String := "called Option::unwrap() on a None value"

/-- Panic message of Result::unwrap on Err. -/
def unwrapErrMsg : String := "called Result::unwrap() on an Err value"

/-- Logical endpoint (buttplug Endpoint enum): the well-known Tx and Rx
values the override table targets, plus the remaining endpoint names. -/
inductive Endpoint
  | tx
  | rx
  | other (s : String)
deriving DecidableEq

/-- Error type of the hardware layer; the only variant this code
constructs is DeviceCommunicationError (webbluetooth_hardware.rs lines
147, 269, 273, 324). -/
inductive ButtplugDeviceError
  | DeviceCommunicationError (msg : String)
deriving DecidableEq

/-- HardwareReading::new(endpoint, bytes) (webbluetooth_hardware.rs line 287). -/
structure HardwareReading where
  endpoint : Endpoint
  data : List Nat
deriving DecidableEq

/-- HardwareEvent broadcast on the session event channel. -/
inductive HardwareEvent
  | Disconnected (id : String)
  | Notification (id : String) (ep : Endpoint) (data : List Nat)
deriving DecidableEq

/-- SessionEvent of the startup handshake (webbluetooth_hardware.rs lines 154-158). -/
inductive WebBluetoothEvent
  | Connected
  | Disconnected
deriving DecidableEq

/-- Service table of a BluetoothLESpecifier: service UUID to the list of
(endpoint name, characteristic UUID) pairs. -/
abbrev ProtoServices := List (String × List (Endpoint × String))

/-- BluetoothLESpecifier: accepted device-name patterns plus the service
table. Name patterns are modelled as Char lists because start_scanning
inspects their characters. -/
structure BluetoothLESpecifier where
  names : List (List Char)
  services : ProtoServices
deriving DecidableEq

/-- ProtocolCommunicationSpecifier: the BluetoothLE variant this layer
handles, and a stand-in for every non-BluetoothLE variant. -/
inductive ProtocolCommunicationSpecifier
  | BluetoothLE (btle : BluetoothLESpecifier)
  | Other
deriving DecidableEq

/-- The EndpointMap: endpoint to resolved characteristic handle, where a
characteristic handle is identified by its UUID string. HashMap is
modelled as an association list read through lookupEndpoint. -/
abbrev CharMap := List (Endpoint × String)

/-- HashMap::get on the endpoint map: first (most recent) binding wins. -/
def lookupEndpoint : CharMap → Endpoint → Option String
  | [], _ => none
  | (e, c) :: rest, q => if q = e then some c else lookupEndpoint rest q

/-- What the live device actually exposes: present service UUIDs, each
with the list of present characteristic UUIDs. -/
abbrev LiveDevice := List (String × List String)

/-- BluetoothRemoteGattServer::get_primary_service_with_str resolved
against the live device. -/
def lookupService : LiveDevice → String → Option (List String)
  | [], _ => none
  | (k, chars) :: rest, q => if q = k then some chars else lookupService rest q

/-- Hard-coded vendor characteristic UUID remapped onto Tx
(webbluetooth_hardware.rs line 225, commented Motor). -/
def powerblow_motor_uuid : String := "00001401-0000-1000-8000-00805f9b34fb"

/-- Hard-coded vendor characteristic UUID remapped onto Rx
(webbluetooth_hardware.rs line 228, commented Solenoid). -/
def powerblow_solenoid_uuid : String := "00001402-0000-1000-8000-00805f9b34fb"

/-- Insertion of one resolved characteristic into the EndpointMap:
the match on chr_uuid at webbluetooth_hardware.rs lines 224-234. The two
vendor UUIDs are inserted under Tx and Rx; every other characteristic is
inserted under its table-assigned endpoint name chr_name. -/
def insert_characteristic (char_map : CharMap) (chr_name : Endpoint) (chr_uuid : String) : CharMap :=
  if chr_uuid = powerblow_motor_uuid then (Endpoint.tx, chr_uuid) :: char_map
  else if chr_uuid = powerblow_solenoid_uuid then (Endpoint.rx, chr_uuid) :: char_map
  else (chr_name, chr_uuid) :: char_map

/-- The inner characteristic loop at webbluetooth_hardware.rs lines
216-235: each configured characteristic of a resolved service is fetched
with get_characteristic_with_str followed by .await.unwrap(), so a
characteristic the device lacks panics the session task; a present one is
inserted through insert_characteristic. -/
def resolve_characteristics (presentChars : List String) :
    List (Endpoint × String) → CharMap → Outcome CharMap
  | [], m => Outcome.ok m
  | (chr_name, chr_uuid) :: rest, m =>
    if chr_uuid ∈ presentChars then
      resolve_characteristics presentChars rest (insert_characteristic m chr_name chr_uuid)
    else Outcome.panicked unwrapErrMsg

/-- The service loop at webbluetooth_hardware.rs lines 198-236: a service
the device lacks is skipped with continue (its endpoints are simply
absent); a resolved service has its characteristics resolved by
resolve_characteristics. -/
def build_endpoint_map (device : LiveDevice) : ProtoServices → CharMap → Outcome CharMap
  | [], m => Outcome.ok m
  | (service_uuid, service_endpoints) :: rest, m =>
    match lookupService device service_uuid with
    | none => build_endpoint_map device rest m
    | some presentChars =>
      match resolve_characteristics presentChars service_endpoints m with
      | Outcome.ok m2 => build_endpoint_map device rest m2
      | Outcome.panicked s => Outcome.panicked s

/-- Result of run_webbluetooth_loop startup: the signal sent on the
device-local channel, with the EndpointMap on the Connected path. -/
inductive StartupOutcome
  | connected (m : CharMap)
  | disconnected
deriving DecidableEq

/-- Startup phase of run_webbluetooth_loop (webbluetooth_hardware.rs lines
186-256): a failed gatt connect sends Disconnected and returns; otherwise
the EndpointMap is built (panicking on a missing characteristic), the
disconnect callback is registered and Connected is sent. -/
def startup (connectOk : Bool) (device : LiveDevice) (proto : ProtoServices) :
    Outcome StartupOutcome :=
  if connectOk then
    match build_endpoint_map device proto [] with
    | Outcome.ok m => Outcome.ok (StartupOutcome.connected m)
    | Outcome.panicked s => Outcome.panicked s
  else Outcome.ok StartupOutcome.disconnected

/-- WebBluetoothDeviceCommand (webbluetooth_hardware.rs lines 160-177),
carrying the target endpoint and, for Write, the payload bytes. -/
inductive WebBluetoothDeviceCommand
  | Write (endpoint : Endpoint) (data : List Nat)
  | Read (endpoint : Endpoint)
  | Subscribe (endpoint : Endpoint)
  | Unsubscribe (endpoint : Endpoint)
deriving DecidableEq

/-- Target endpoint of a command (the cmd.endpoint() accessor). -/
def commandEndpoint : WebBluetoothDeviceCommand → Endpoint
  | WebBluetoothDeviceCommand.Write e _ => e
  | WebBluetoothDeviceCommand.Read e => e
  | WebBluetoothDeviceCommand.Subscribe e => e
  | WebBluetoothDeviceCommand.Unsubscribe e => e

/-- The browser GATT operations used by the per-command sub-tasks, each
fallible, keyed by the characteristic handle. -/
structure BrowserGatt where
  writeValue : String → List Nat → Except String Unit
  readValue : String → Except String (List Nat)
  startNotifications : String → Except String Unit
  stopNotifications : String → Except String Unit

/-- GATT layer on which every platform operation succeeds; reads return [0]. -/
def trivialGatt : BrowserGatt :=
  BrowserGatt.mk (fun _ _ => Except.ok ()) (fun _ => Except.ok [0])
    (fun _ => Except.ok ()) (fun _ => Except.ok ())

/-- GATT layer on which reads fail with a platform error. -/
def failingReadGatt : BrowserGatt :=
  BrowserGatt.mk (fun _ _ => Except.ok ()) (fun _ => Except.error "NetworkError")
    (fun _ => Except.ok ()) (fun _ => Except.ok ())

/-- What a command fulfills its completion with. -/
inductive CompletionReply
  | success
  | reading (r : HardwareReading)
  | err (e : ButtplugDeviceError)
deriving DecidableEq

/-- The sub-task spawned for one command once its characteristic chr has
been looked up (webbluetooth_hardware.rs lines 262-277, 282-289, 312-316,
321-328). Write and Unsubscribe convert platform failure into a
DeviceCommunicationError reply; Read unwraps the platform result (line
283) and Subscribe unwraps start_notifications (line 313), so a platform
failure there panics the sub-task and the completion is never fulfilled. -/
def command_subtask (p : BrowserGatt) (chr : String) :
    WebBluetoothDeviceCommand → Outcome CompletionReply
  | WebBluetoothDeviceCommand.Write _ data =>
    match p.writeValue chr data with
    | Except.ok _ => Outcome.ok CompletionReply.success
    | Except.error err => Outcome.ok (CompletionReply.err
        (ButtplugDeviceError.DeviceCommunicationError ("Failed to write value: " ++ err)))
  | WebBluetoothDeviceCommand.Read e =>
    match p.readValue chr with
    | Except.ok body => Outcome.ok (CompletionReply.reading (HardwareReading.mk e body))
    | Except.error _ => Outcome.panicked unwrapErrMsg
  | WebBluetoothDeviceCommand.Subscribe _ =>
    match p.startNotifications chr with
    | Except.ok _ => Outcome.ok CompletionReply.success
    | Except.error _ => Outcome.panicked unwrapErrMsg
  | WebBluetoothDeviceCommand.Unsubscribe _ =>
    match p.stopNotifications chr with
    | Except.ok _ => Outcome.ok CompletionReply.success
    | Except.error err => Outcome.ok (CompletionReply.err
        (ButtplugDeviceError.DeviceCommunicationError ("Failed to unsubscribe: " ++ err)))

/-- The command loop of run_webbluetooth_loop (webbluetooth_hardware.rs
lines 257-331) run over a queue of commands. For each command the loop
itself performs char_map.get(&endpoint).unwrap() (lines 261, 281, 293,
320): an endpoint absent from the map panics the loop, abandoning every
later command; otherwise the command's sub-task outcome is recorded. -/
def command_loop (p : BrowserGatt) (char_map : CharMap) :
    List WebBluetoothDeviceCommand → Outcome (List (Outcome CompletionReply))
  | [] => Outcome.ok []
  | cmd :: rest =>
    match lookupEndpoint char_map (commandEndpoint cmd) with
    | none => Outcome.panicked unwrapNoneMsg
    | some chr =>
      match command_loop p char_map rest with
      | Outcome.ok results => Outcome.ok (command_subtask p chr cmd :: results)
      | Outcome.panicked s => Outcome.panicked s

/-- The uniform Hardware facade value: Hardware::new(&name, &address, ...)
(webbluetooth_hardware.rs line 145). -/
structure Hardware where
  name : String
  address : String
deriving DecidableEq

/-- WebBluetoothHardwareSpecializer::specialize (webbluetooth_hardware.rs
lines 105-151) as a function of the candidate specifiers, the device name
and address, and the one signal received from the startup channel (none
when the channel closed with no signal, which the code unwraps). An empty
candidate list panics at specifiers[0]; a non-BluetoothLE first candidate
hits the explicit panic; Connected yields the Hardware facade and
Disconnected yields a DeviceCommunicationError. -/
def specialize (specifiers : List ProtocolCommunicationSpecifier)
    (deviceName deviceAddress : String) (received : Option WebBluetoothEvent) :
    Outcome (Except ButtplugDeviceError Hardware) :=
  match specifiers with
  | [] => Outcome.panicked "index out of bounds: the len is 0"
  | s :: _ =>
    match s with
    | ProtocolCommunicationSpecifier.Other => Outcome.panicked "No bluetooth, we quit"
    | ProtocolCommunicationSpecifier.BluetoothLE _ =>
      match received with
      | none => Outcome.panicked unwrapNoneMsg
      | some WebBluetoothEvent.Connected =>
        Outcome.ok (Except.ok (Hardware.mk deviceName deviceAddress))
      | some WebBluetoothEvent.Disconnected =>
        Outcome.ok (Except.error (ButtplugDeviceError.DeviceCommunicationError
          "Could not connect to WebBluetooth device"))

/-- One entry of the filters array passed to requestDevice: either
setNamePrefix or setName was called on it. -/
inductive ScanFilter
  | prefixFilter (p : List Char)
  | nameFilter (n : List Char)
deriving DecidableEq

/-- Construction of one scan filter from one name pattern
(webbluetooth_manager.rs lines 67-74): a pattern containing the wildcard
marker is cloned, its last character popped, and used as a name-prefix
filter; otherwise the pattern is used as an exact-name filter. -/
def mkNameFilter (pattern : List Char) : ScanFilter :=
  if '*' ∈ pattern then ScanFilter.prefixFilter pattern.dropLast
  else ScanFilter.nameFilter pattern

/-- The catalog walk of start_scanning (webbluetooth_manager.rs lines
63-82): for every BluetoothLE specifier, one filter per name pattern is
pushed, then one optional-services entry per referenced service UUID;
non-BluetoothLE specifiers contribute nothing. -/
def build_scan_filters : List ProtocolCommunicationSpecifier → List ScanFilter × List String
  | [] => ([], [])
  | ProtocolCommunicationSpecifier.Other :: rest => build_scan_filters rest
  | ProtocolCommunicationSpecifier.BluetoothLE btle :: rest =>
    let r := build_scan_filters rest
    (btle.names.map mkNameFilter ++ r.1, btle.services.map Prod.fst ++ r.2)

/-- The BluetoothLE specifiers of a catalog, in order. -/
def bleSpecifiers : List ProtocolCommunicationSpecifier → List BluetoothLESpecifier
  | [] => []
  | ProtocolCommunicationSpecifier.Other :: rest => bleSpecifiers rest
  | ProtocolCommunicationSpecifier.BluetoothLE btle :: rest => btle :: bleSpecifiers rest

/-- Events the scan task sends to the communication-manager channel. -/
inductive ScanEvent
  | DeviceFound (deviceName deviceAddress : String)
  | ScanningFinished
deriving DecidableEq

/-- Result of the requestDevice chooser: a device (whose reported name may
be absent) or a platform error such as user cancellation. -/
inductive ChooserResult
  | success (deviceName : Option String) (deviceAddress : String)
  | failure (err : String)
deriving DecidableEq

/-- Host environment of one scan attempt: whether navigator.bluetooth
exists, and what the chooser returns if reached. -/
structure ScanEnv where
  bluetoothAvailable : Bool
  chooser : ChooserResult
deriving DecidableEq

/-- The task spawned by start_scanning (webbluetooth_manager.rs lines
52-116), as the list of events it sends. Missing capability logs and
returns at line 56 (no events); a chooser error is logged and falls
through to ScanningFinished (lines 109-115); a chosen device without a
name returns at line 90 (no events); a named device yields DeviceFound
then ScanningFinished. -/
def scan_task (env : ScanEnv) : List ScanEvent :=
  if env.bluetoothAvailable = false then []
  else
    match env.chooser with
    | ChooserResult.failure _ => [ScanEvent.ScanningFinished]
    | ChooserResult.success none _ => []
    | ChooserResult.success (some n) a => [ScanEvent.DeviceFound n a, ScanEvent.ScanningFinished]

/-- start_scanning (webbluetooth_manager.rs lines 49-118): spawns the scan
task and returns ready(Ok(())) unconditionally. The pair is the returned
result together with the events the spawned task will send. -/
def start_scanning (env : ScanEnv) : Except String Unit × List ScanEvent :=
  (Except.ok (), scan_task env)

/-- Number of ScanningFinished signals in a scan-event list. -/
def countScanningFinished : List ScanEvent → Nat
  | [] => 0
  | ScanEvent.ScanningFinished :: rest => countScanningFinished rest + 1
  | ScanEvent.DeviceFound _ _ :: rest => countScanningFinished rest

/-- Whether the chooser outcome is one of the paths that reach the final
ScanningFinished send: an error, or a device with a name. -/
def chooserNamedOrFailed : ChooserResult → Bool
  | ChooserResult.failure _ => true
  | ChooserResult.success (some _) _ => true
  | ChooserResult.success none _ => false

/-- Result of tokio broadcast Sender::send with the given number of
currently active receivers: per tokio semantics it returns Err carrying
the value back when no receiver is active, Ok otherwise (never blocking). -/
def broadcast_send (receiverCount : Nat) (ev : HardwareEvent) : Except HardwareEvent Unit :=
  if receiverCount = 0 then Except.error ev else Except.ok ()

/-- The ongattserverdisconnected callback (webbluetooth_hardware.rs lines
240-247): event_sender.send(HardwareEvent::Disconnected(id)).unwrap(). -/
def ondisconnected_callback (receiverCount : Nat) (id : String) : Outcome Unit :=
  match broadcast_send receiverCount (HardwareEvent.Disconnected id) with
  | Except.ok _ => Outcome.ok ()
  | Except.error _ => Outcome.panicked unwrapErrMsg

/-- The oncharacteristicvaluechanged callback registered by Subscribe
(webbluetooth_hardware.rs lines 297-309):
event_sender.send(HardwareEvent::Notification(id, ep, value_vec)).unwrap(). -/
def onchange_callback (receiverCount : Nat) (id : String) (ep : Endpoint)
    (value_vec : List Nat) : Outcome Unit :=
  match broadcast_send receiverCount (HardwareEvent.Notification id ep value_vec) with
  | Except.ok _ => Outcome.ok ()
  | Except.error _ => Outcome.panicked unwrapErrMsg

/-- C1: the claim says a command whose endpoint is absent from the
EndpointMap has its completion fulfilled with an UnknownEndpoint-class
error and the loop keeps processing subsequent commands. The code instead
does char_map.get(&endpoint).unwrap() inside the loop: with a map holding
only Tx, a Read of Rx panics the whole loop and the following (valid)
Read of Tx is never processed, while the same queue without the bad
command is processed normally. -/
theorem c1_unknown_endpoint_panics_loop :
    command_loop trivialGatt [(Endpoint.tx, "c1")]
        [WebBluetoothDeviceCommand.Read Endpoint.rx, WebBluetoothDeviceCommand.Read Endpoint.tx]
      = Outcome.panicked unwrapNoneMsg
    ∧ command_loop trivialGatt [(Endpoint.tx, "c1")]
        [WebBluetoothDeviceCommand.Read Endpoint.tx]
      = Outcome.ok [Outcome.ok (CompletionReply.reading (HardwareReading.mk Endpoint.tx [0]))] :=
  ⟨rfl, rfl⟩

/-- C2: during EndpointMap construction, a resolved characteristic whose
UUID is 00001401-0000-1000-8000-00805f9b34fb is inserted under Tx and one
whose UUID is 00001402-0000-1000-8000-00805f9b34fb under Rx, whatever
endpoint name chr_name the specifier table assigned; every other
characteristic is inserted under its table-assigned endpoint name. -/
theorem c2_powerblow_override (m : CharMap) (chr_name : Endpoint) (chr_uuid : String) :
    (chr_uuid = powerblow_motor_uuid →
      lookupEndpoint (insert_characteristic m chr_name chr_uuid) Endpoint.tx = some chr_uuid)
    ∧ (chr_uuid = powerblow_solenoid_uuid →
      lookupEndpoint (insert_characteristic m chr_name chr_uuid) Endpoint.rx = some chr_uuid)
    ∧ (chr_uuid ≠ powerblow_motor_uuid → chr_uuid ≠ powerblow_solenoid_uuid →
      lookupEndpoint (insert_characteristic m chr_name chr_uuid) chr_name = some chr_uuid) := by
  refine ⟨fun h1 => ?_, fun h2 => ?_, fun h1 h2 => ?_⟩
  · subst h1
    simp [insert_characteristic, lookupEndpoint]
  · subst h2
    have hne : powerblow_solenoid_uuid ≠ powerblow_motor_uuid := by decide
    simp [insert_characteristic, lookupEndpoint, hne]
  · simp [insert_characteristic, lookupEndpoint, h1, h2]

/-- Witness for c2_powerblow_override at concrete inputs: the motor UUID
lands on Tx even though the table said motor, the solenoid UUID lands on
Rx even though the table said solenoid, and an unrelated UUID lands on
its table-assigned endpoint. -/
theorem c2_powerblow_override_witness :
    lookupEndpoint (insert_characteristic [] (Endpoint.other "motor") powerblow_motor_uuid)
        Endpoint.tx = some powerblow_motor_uuid
    ∧ lookupEndpoint (insert_characteristic [] (Endpoint.other "solenoid") powerblow_solenoid_uuid)
        Endpoint.rx = some powerblow_solenoid_uuid
    ∧ lookupEndpoint (insert_characteristic [] (Endpoint.other "aux") "abc")
        (Endpoint.other "aux") = some "abc" :=
  ⟨(c2_powerblow_override [] (Endpoint.other "motor") powerblow_motor_uuid).1 rfl,
   (c2_powerblow_override [] (Endpoint.other "solenoid") powerblow_solenoid_uuid).2.1 rfl,
   (c2_powerblow_override [] (Endpoint.other "aux") "abc").2.2 (by decide) (by decide)⟩

/-- C3: a name pattern ending in the wildcard marker produces a
name-prefix filter with the marker stripped; a pattern containing no
wildcard marker produces an exact-name filter; and over any catalog the
filter array holds exactly one entry per name pattern of every
BluetoothLE specifier while the optional-services array holds exactly one
entry per referenced service UUID. -/
theorem c3_scan_filter_construction :
    (∀ p : List Char, mkNameFilter (p ++ ['*']) = ScanFilter.prefixFilter p)
    ∧ (∀ pat : List Char, '*' ∉ pat → mkNameFilter pat = ScanFilter.nameFilter pat)
    ∧ (∀ catalog : List ProtocolCommunicationSpecifier,
        (build_scan_filters catalog).1
            = ((bleSpecifiers catalog).map (fun b => b.names.map mkNameFilter)).flatten
        ∧ (build_scan_filters catalog).2
            = ((bleSpecifiers catalog).map (fun b => b.services.map Prod.fst)).flatten) := by
  refine ⟨fun p => ?_, fun pat h => ?_, fun catalog => ?_⟩
  · have hmem : '*' ∈ p ++ ['*'] := by simp
    simp [mkNameFilter, hmem]
  · simp [mkNameFilter, h]
  · induction catalog with
    | nil => simp [build_scan_filters, bleSpecifiers]
    | cons head rest ih =>
      cases head with
      | Other => simpa [build_scan_filters, bleSpecifiers] using ih
      | BluetoothLE btle =>
        simp [build_scan_filters, bleSpecifiers, ih.1, ih.2]

/-- Witness for c3_scan_filter_construction: the pattern LVS* gives a
prefix filter LVS, and the pattern Nora (no wildcard) gives an exact-name
filter. -/
theorem c3_scan_filter_construction_witness :
    mkNameFilter (['L', 'V', 'S'] ++ ['*']) = ScanFilter.prefixFilter ['L', 'V', 'S']
    ∧ mkNameFilter ['N', 'o', 'r', 'a'] = ScanFilter.nameFilter ['N', 'o', 'r', 'a'] :=
  ⟨c3_scan_filter_construction.1 ['L', 'V', 'S'],
   c3_scan_filter_construction.2.1 ['N', 'o', 'r', 'a'] (by decide)⟩

/-- C4: the claim says a missing characteristic, like a missing service,
is silently skipped during EndpointMap construction. The code only skips
missing services (continue at line 214); a characteristic the device
lacks under a resolved service hits .await.unwrap() at lines 218-222 and
panics the session task. Concretely: with a device exposing service s1
holding only characteristic c1, a specifier referencing the absent
service s3 yields a clean Connected with an empty map, but a specifier
mapping s1 to the absent characteristic c2 panics instead of connecting. -/
theorem c4_missing_characteristic_panics :
    startup true [("s1", ["c1"])] [("s3", [(Endpoint.other "aux", "c2")])]
      = Outcome.ok (StartupOutcome.connected [])
    ∧ startup true [("s1", ["c1"])] [("s1", [(Endpoint.other "aux", "c2")])]
      = Outcome.panicked unwrapErrMsg :=
  ⟨rfl, rfl⟩

/-- C5: the claim says a Read on a present endpoint fulfills the
completion with a Reading on success and with a DeviceCommunicationError
on platform failure. The success half matches the code, but on platform
failure the spawned sub-task does JsFuture::from(chr.read_value()).await
.unwrap() (line 283) and panics, so the completion is never fulfilled
with any error. -/
theorem c5_read_failure_panics :
    command_subtask trivialGatt "c1" (WebBluetoothDeviceCommand.Read Endpoint.tx)
      = Outcome.ok (CompletionReply.reading (HardwareReading.mk Endpoint.tx [0]))
    ∧ command_subtask failingReadGatt "c1" (WebBluetoothDeviceCommand.Read Endpoint.tx)
      = Outcome.panicked unwrapErrMsg :=
  ⟨rfl, rfl⟩

/-- C6 counterexample: on the capability-absent path the scan task returns
before the filters are even built, emitting zero ScanningFinished signals,
so it is false that every execution path (including capability absence)
emits exactly one. -/
theorem c6_counterexample :
    countScanningFinished (scan_task (ScanEnv.mk false (ChooserResult.failure "unused"))) ≠ 1 := by
  decide

/-- C6 amended: the scan task emits at most one ScanningFinished, and
exactly one precisely when the host has bluetooth capability and the
chooser returns either an error or a named device; the capability-absent
and nameless-device paths emit none. -/
theorem c6_scanning_finished_count (env : ScanEnv) :
    countScanningFinished (scan_task env)
      = if env.bluetoothAvailable && chooserNamedOrFailed env.chooser then 1 else 0 := by
  obtain ⟨avail, ch⟩ := env
  cases avail with
  | false =>
    cases ch with
    | success n a => cases n <;> simp [scan_task, countScanningFinished, chooserNamedOrFailed]
    | failure e => simp [scan_task, countScanningFinished, chooserNamedOrFailed]
  | true =>
    cases ch with
    | success n a => cases n <;> simp [scan_task, countScanningFinished, chooserNamedOrFailed]
    | failure e => simp [scan_task, countScanningFinished, chooserNamedOrFailed]

/-- C7: specialize with a candidate list whose first element is a
BluetoothLE specifier, given the single signal received from the startup
channel, returns the live Hardware facade carrying the device name and
address when the signal is Connected, and a DeviceCommunicationError when
the signal is Disconnected. -/
theorem c7_specialize_result (specs : List ProtocolCommunicationSpecifier)
    (btle : BluetoothLESpecifier) (n a : String)
    (h : specs.head? = some (ProtocolCommunicationSpecifier.BluetoothLE btle)) :
    specialize specs n a (some WebBluetoothEvent.Connected)
      = Outcome.ok (Except.ok (Hardware.mk n a))
    ∧ specialize specs n a (some WebBluetoothEvent.Disconnected)
      = Outcome.ok (Except.error (ButtplugDeviceError.DeviceCommunicationError
          "Could not connect to WebBluetooth device")) := by
  cases specs with
  | nil => simp at h
  | cons s rest =>
    simp at h
    subst h
    exact ⟨rfl, rfl⟩

/-- Witness for c7_specialize_result on a singleton BluetoothLE candidate
list with a concrete name and address. -/
theorem c7_specialize_result_witness :
    specialize [ProtocolCommunicationSpecifier.BluetoothLE (BluetoothLESpecifier.mk [] [])]
        "Powerblow" "addr0" (some WebBluetoothEvent.Connected)
      = Outcome.ok (Except.ok (Hardware.mk "Powerblow" "addr0"))
    ∧ specialize [ProtocolCommunicationSpecifier.BluetoothLE (BluetoothLESpecifier.mk [] [])]
        "Powerblow" "addr0" (some WebBluetoothEvent.Disconnected)
      = Outcome.ok (Except.error (ButtplugDeviceError.DeviceCommunicationError
          "Could not connect to WebBluetooth device")) :=
  c7_specialize_result [ProtocolCommunicationSpecifier.BluetoothLE (BluetoothLESpecifier.mk [] [])]
    (BluetoothLESpecifier.mk [] []) "Powerblow" "addr0" rfl

/-- C8 counterexample: on a host without bluetooth capability,
start_scanning still returns Ok(()) and the spawned task emits nothing,
so capability absence is not reported as a failure of the returned
result. -/
theorem c8_counterexample :
    (start_scanning (ScanEnv.mk false (ChooserResult.failure "unused"))).1 = Except.ok ()
    ∧ scan_task (ScanEnv.mk false (ChooserResult.failure "unused")) = [] :=
  ⟨rfl, rfl⟩

/-- C8 amended: start_scanning returns immediately with an unconditional
success acknowledgement for every environment; when the host lacks radio
support the background task terminates without emitting any event, so
capability absence is only logged, never reported to the caller. -/
theorem c8_returns_ok_always (env : ScanEnv) :
    (start_scanning env).1 = Except.ok ()
    ∧ (env.bluetoothAvailable = false → scan_task env = []) := by
  refine ⟨rfl, fun h => ?_⟩
  simp [scan_task, h]

/-- Witness for c8_returns_ok_always on the capability-absent environment. -/
theorem c8_returns_ok_always_witness :
    (start_scanning (ScanEnv.mk false (ChooserResult.failure "cancel"))).1 = Except.ok ()
    ∧ scan_task (ScanEnv.mk false (ChooserResult.failure "cancel")) = [] :=
  ⟨(c8_returns_ok_always (ScanEnv.mk false (ChooserResult.failure "cancel"))).1,
   (c8_returns_ok_always (ScanEnv.mk false (ChooserResult.failure "cancel"))).2 rfl⟩

/-- C9: the claim says broadcasting a HardwareEvent never fails or panics
in the producer even with no subscriber registered. Per tokio broadcast
semantics send returns Err when no receiver is active, and both callbacks
unwrap that result: with zero subscribers the disconnect callback and the
notification callback panic, while with one subscriber they succeed. -/
theorem c9_broadcast_unwrap_panics :
    ondisconnected_callback 0 "dev0" = Outcome.panicked unwrapErrMsg
    ∧ onchange_callback 0 "dev0" Endpoint.rx [1] = Outcome.panicked unwrapErrMsg
    ∧ ondisconnected_callback 1 "dev0" = Outcome.ok () :=
  ⟨rfl, rfl, rfl⟩

/-- C10: when the chooser returns a device whose reported name is absent,
the scan task returns at that point: it emits no DeviceFound and no
ScanningFinished, whatever the device address. -/
theorem c10_nameless_device_dropped (deviceAddress : String) :
    scan_task (ScanEnv.mk true (ChooserResult.success none deviceAddress)) = [] := by
  simp [scan_task]
